import Mathlib

/-!
A shallow embedding of the DDPG training code in `Scripts/DDPGNetwork.py` and
`Scripts/DDPG_run.py`, with theorems checking the specification's statements
about the replay buffer, the learning update, the target-network soft update,
the weight-initialisation bounds, the actor output bound, and the entry
point's configuration handling.

Numpy arrays and torch tensors are modelled as Lean lists of rationals
(reals where square roots and the hyperbolic tangent occur); the
random draws and the autograd/optimizer steps, which are not functions of the
embedded state, are taken as explicit arguments where a method uses them.
-/

namespace DDPG

/-- A transition as passed to `ReplayBuffer.store_transition`:
(state, action, reward, state_, done). -/
structure Transition where
  state : List ℚ
  action : List ℚ
  reward : ℚ
  state_ : List ℚ
  done : Bool
  deriving DecidableEq

instance : Inhabited Transition := ⟨⟨[], [], 0, [], false⟩⟩

/-- The state of `ReplayBuffer`: five parallel fixed-size arrays plus the
insertion counter `mem_cntr`.  The `terminal_memory` array has numpy dtype
`bool`. -/
structure ReplayBuffer where
  mem_size : Nat
  mem_cntr : Nat
  state_memory : List (List ℚ)
  new_state_memory : List (List ℚ)
  action_memory : List (List ℚ)
  reward_memory : List ℚ
  terminal_memory : List Bool
  deriving DecidableEq

/-- Embedding of `ReplayBuffer.__init__(max_size, input_shape, n_actions)`:
all five arrays are `np.zeros` of the appropriate shape, `mem_cntr = 0`. -/
def ReplayBuffer.make (max_size input_shape n_actions : Nat) : ReplayBuffer where
  mem_size := max_size
  mem_cntr := 0
  state_memory := List.replicate max_size (List.replicate input_shape 0)
  new_state_memory := List.replicate max_size (List.replicate input_shape 0)
  action_memory := List.replicate max_size (List.replicate n_actions 0)
  reward_memory := List.replicate max_size 0
  terminal_memory := List.replicate max_size false

/-- Conversion of an integer into an entry of a numpy array of dtype `bool`
(nonzero maps to `True`), as happens when `1 - done` is assigned into
`terminal_memory`. -/
def numpyBool (n : Nat) : Bool := decide (n ≠ 0)

/-- Embedding of `ReplayBuffer.store_transition` (DDPGNetwork.py lines
48-56): writes the five fields at `index = mem_cntr % mem_size`, storing
`1 - done` into the dtype-`bool` terminal array, then increments
`mem_cntr`. -/
def ReplayBuffer.store_transition (b : ReplayBuffer) (state action : List ℚ)
    (reward : ℚ) (state_ : List ℚ) (done : Bool) : ReplayBuffer :=
  let index := b.mem_cntr % b.mem_size
  { b with
    state_memory := b.state_memory.set index state
    new_state_memory := b.new_state_memory.set index state_
    action_memory := b.action_memory.set index action
    reward_memory := b.reward_memory.set index reward
    terminal_memory :=
      b.terminal_memory.set index (numpyBool (1 - (if done then 1 else 0)))
    mem_cntr := b.mem_cntr + 1 }

/-- Repeated `store_transition` of a list of transitions, in order. -/
def ReplayBuffer.storeAll (b : ReplayBuffer) (ts : List Transition) : ReplayBuffer :=
  ts.foldl (fun b t => b.store_transition t.state t.action t.reward t.state_ t.done) b

/-- The batch returned by `ReplayBuffer.sample_buffer`: five parallel
arrays. -/
structure SampleBatch where
  states : List (List ℚ)
  actions : List (List ℚ)
  rewards : List ℚ
  states_ : List (List ℚ)
  terminal : List Bool
  deriving DecidableEq

/-- The possible draws of `np.random.choice(pop_size, n)`: `n` indices drawn
independently, with replacement, uniformly from `[0, pop_size)`; any list of
`n` indices below `pop_size` is a possible value. -/
def choiceSupport (pop_size n : Nat) (batch : List Nat) : Prop :=
  batch.length = n ∧ ∀ i ∈ batch, i < pop_size

/-- Embedding of `ReplayBuffer.sample_buffer` (lines 58-69).  The random
draw `batch = np.random.choice(max_mem, batch_size)` is passed in as the
`batch` argument (see `choiceSupport`); `np.random.choice` raises
`ValueError` when `max_mem = 0`, modelled by `none`.  The method only reads
`self`, so the buffer component of the result is the input buffer. -/
def ReplayBuffer.sample_buffer (b : ReplayBuffer) (batch : List Nat) :
    Option (ReplayBuffer × SampleBatch) :=
  let max_mem := min b.mem_cntr b.mem_size
  if max_mem = 0 then none
  else some (b,
    { states := batch.map fun i => b.state_memory.getD i []
      actions := batch.map fun i => b.action_memory.getD i []
      rewards := batch.map fun i => b.reward_memory.getD i 0
      states_ := batch.map fun i => b.new_state_memory.getD i []
      terminal := batch.map fun i => b.terminal_memory.getD i false })

/-- Whether cyclic writing at cursor `j % N` has touched slot `s` within the
first `k` insertions. -/
def slotWritten (k N s : Nat) : Bool := (List.range k).any fun j => j % N == s

/-- A network's `named_parameters()` as an association list from parameter
name to parameter tensor, each tensor modelled as a flat list of scalars. -/
abbrev StateDict := List (String × List ℚ)

/-- One Polyak blend of a whole state dict, as in
`Agent.update_network_parameters` (lines 330-336 and 338-344): each entry of
the source dict is replaced by `tau * source + (1 - tau) * target`
elementwise, the target tensor being matched by name; the resulting dict is
then loaded into the target network. -/
def polyakDict (tau : ℚ) (src tgt : StateDict) : StateDict :=
  src.map fun p =>
    (p.1, List.zipWith (fun s t => tau * s + (1 - tau) * t) p.2 ((tgt.lookup p.1).getD []))

/-- The `Agent` state relevant to the learning update: discount and Polyak
coefficients, batch size, the replay buffer, the four networks' parameter
dicts, and the recorded scalar losses. -/
structure Agent where
  gamma : ℚ
  tau : ℚ
  batch_size : Nat
  memory : ReplayBuffer
  actor : StateDict
  critic : StateDict
  target_actor : StateDict
  target_critic : StateDict
  actor_loss : ℚ
  critic_loss : ℚ
  deriving DecidableEq

/-- Embedding of `Agent.update_network_parameters(tau)` (lines 316-344):
blends the source dicts into the target dicts; the source networks are only
read. -/
def Agent.update_network_parameters (a : Agent) (tau : ℚ) : Agent :=
  { a with
    target_critic := polyakDict tau a.critic a.target_critic
    target_actor := polyakDict tau a.actor a.target_actor }

/-- The TD-target loop of `Agent.learn` (lines 290-295):
`target.append(reward[j] + self.gamma * critic_value_[j] * int(done[j]))`
for `j in range(batch_size)`; `done` is the sampled `terminal_memory` batch
(the stored "continues" flags), and `int` maps `True` to 1 and `False`
to 0. -/
def tdTargets (gamma : ℚ) (batch_size : Nat) (reward critic_value_ : List ℚ)
    (done : List Bool) : List ℚ :=
  (List.range batch_size).map fun j =>
    reward.getD j 0 + gamma * critic_value_.getD j 0 * (if done.getD j false then 1 else 0)

/-- Embedding of `F.mse_loss` with the default mean reduction. -/
def mseLoss (target pred : List ℚ) : ℚ :=
  (List.zipWith (fun t p => (t - p) ^ 2) target pred).sum / (target.length : ℚ)

/-- Embedding of `T.mean` of a flat tensor. -/
def meanList (l : List ℚ) : ℚ := l.sum / (l.length : ℚ)

/-- Embedding of `Agent.learn` (lines 270-314).  The parts that are not
functions of the embedded state are arguments: `batch` is the index draw made
by `np.random.choice` inside `sample_buffer`; `critic_value_`, `critic_value`
and `critic_mu` are the forward outputs
`target_critic.forward(new_state, target_actions)`,
`critic.forward(state, action)` and `critic.forward(state, mu)`;
`criticStep` and `actorStep` are the parameter updates applied by the
`backward()` / `optimizer.step()` pairs (autograd is not embedded).  A
`none` result is the `ValueError` of `np.random.choice` on an empty buffer;
under the guard `mem_cntr < batch_size` the method returns with the agent
untouched.  The final call is `update_network_parameters()` with the default
`tau = self.tau`. -/
def Agent.learn (a : Agent) (batch : List Nat)
    (critic_value_ critic_value critic_mu : List ℚ)
    (criticStep actorStep : StateDict → StateDict) : Option Agent :=
  if a.memory.mem_cntr < a.batch_size then some a
  else match a.memory.sample_buffer batch with
    | none => none
    | some (mem, s) =>
      let target := tdTargets a.gamma a.batch_size s.rewards critic_value_ s.terminal
      let closs := mseLoss target critic_value
      let aloss := meanList (critic_mu.map fun q => -q)
      some (Agent.update_network_parameters
        { a with
          memory := mem
          critic := criticStep a.critic
          critic_loss := closs
          actor := actorStep a.actor
          actor_loss := aloss } a.tau)

/-- Embedding of `torch.mul`-free helper: dot product of a weight row with
the input vector. -/
noncomputable def dotProd (w x : List ℝ) : ℝ := (List.zipWith (fun a b => a * b) w x).sum

/-- Embedding of the forward pass of `nn.Linear`: one output per row of the
weight matrix, `y_i = w_i . x + b_i`. -/
noncomputable def linearFwd (weight : List (List ℝ)) (bias : List ℝ) (x : List ℝ) : List ℝ :=
  List.zipWith (fun w b => dotProd w x + b) weight bias

/-- Embedding of `nn.LayerNorm` with PyTorch's default `eps = 1e-5`:
normalise by the mean and biased variance over the feature dimension, then
apply the learnable affine parameters. -/
noncomputable def layerNormFwd (g b : List ℝ) (x : List ℝ) : List ℝ :=
  let m := x.sum / (x.length : ℝ)
  let v := ((x.map fun xi => (xi - m) ^ 2).sum) / (x.length : ℝ)
  List.zipWith (fun gb xi => (xi - m) / Real.sqrt (v + 1e-5) * gb.1 + gb.2) (g.zip b) x

/-- Embedding of `F.relu`. -/
noncomputable def relu (x : ℝ) : ℝ := max x 0

/-- The learnable parameters of `ActorNetwork`: the two hidden affine
layers, their LayerNorms, and the output layer `mu`. -/
structure ActorParams where
  fc1_w : List (List ℝ)
  fc1_b : List ℝ
  bn1_g : List ℝ
  bn1_b : List ℝ
  fc2_w : List (List ℝ)
  fc2_b : List ℝ
  bn2_g : List ℝ
  bn2_b : List ℝ
  mu_w : List (List ℝ)
  mu_b : List ℝ

/-- Embedding of `ActorNetwork.forward` (lines 182-191): fc1, LayerNorm,
relu, fc2, LayerNorm, relu, mu, tanh. -/
noncomputable def ActorNetwork.forward (p : ActorParams) (state : List ℝ) : List ℝ :=
  let x1 := linearFwd p.fc1_w p.fc1_b state
  let x2 := layerNormFwd p.bn1_g p.bn1_b x1
  let x3 := x2.map relu
  let x4 := linearFwd p.fc2_w p.fc2_b x3
  let x5 := layerNormFwd p.bn2_g p.bn2_b x4
  let x6 := x5.map relu
  (linearFwd p.mu_w p.mu_b x6).map Real.tanh

/-- PyTorch `nn.Linear(in_features, out_features)` stores its weight tensor
with shape `(out_features, in_features)`, so `weight.data.size()[0]` is the
layer's output dimension. -/
def linearWeightSize0 (_in_features out_features : Nat) : Nat := out_features

/-- The half-width `f1` (and `f2`) of the uniform initialisation of the
hidden layers fc1/fc2 of both networks (lines 93, 99, 162, 169):
`1.0 / np.sqrt(layer.weight.data.size()[0])`. -/
noncomputable def hiddenInitBound (in_features out_features : Nat) : ℝ :=
  1 / Real.sqrt (linearWeightSize0 in_features out_features)

/-- The half-width `f4 = 0.003` used for the output layers `q` (Critic) and
`mu` (Actor) (lines 109-112, 174-177). -/
def outputInitBound : ℚ := 0.003

/-- The half-width the specification claims for hidden layers:
`1 / sqrt(fan_in)`, `fan_in` being the layer's input dimension. -/
noncomputable def specHiddenInitBound (in_features _out_features : Nat) : ℝ :=
  1 / Real.sqrt in_features

/-- The entry point's task table (DDPG_run.py line 97). -/
def task_list : List String := ["Reach", "Push", "PickAndPlace", "Slide", "Stack"]

/-- The entry point's reward-mode table (line 106). -/
def reward_list : List String := ["Dense", ""]

/-- Python list indexing `xs[i]`, including the negative-index convention
`xs[i] = xs[len + i]` for `-len <= i < 0`; out-of-range indexing raises
`IndexError`, modelled as `none`. -/
def pyIndex {α : Type} (xs : List α) (i : Int) : Option α :=
  if 0 ≤ i then xs[i.toNat]?
  else if -(xs.length : Int) ≤ i then xs[(i + xs.length).toNat]?
  else none

/-- In `multiprocessing`, constructing `Pool(processes = n)` raises
`ValueError` unless `n ≥ 1`; modelled as `none`. -/
def poolCheck (n : Int) : Option Int := if 1 ≤ n then some n else none

/-- The configuration phase of `DDPG_main` (DDPG_run.py lines 94-117): the
task index selects from `task_list`, the reward index from `reward_list`,
and the run count is handed to `Pool`; all three are consumed before any
worker process (and hence any Agent or environment) is created.  A `none`
models the uncaught exception that aborts the process at entry. -/
def DDPG_main_config (task_idx reward_idx no_runs : Int) :
    Option (String × String × Int) := do
  let t ← pyIndex task_list task_idx
  let r ← pyIndex reward_list reward_idx
  let n ← poolCheck no_runs
  pure (t, r, n)

/-- A small concrete buffer used by the witnesses: capacity 3, scalar
observations and actions, nothing stored yet. -/
def sampleBuf : ReplayBuffer := ReplayBuffer.make 3 1 1

/-- The buffer above after one stored transition. -/
def sampleBuf1 : ReplayBuffer := sampleBuf.store_transition [2] [3] 4 [5] true

/-- A small concrete agent state used by the witnesses. -/
def sampleAgent : Agent where
  gamma := 99 / 100
  tau := 1 / 1000
  batch_size := 1
  memory := sampleBuf
  actor := [("w", [1, 2])]
  critic := [("w", [5])]
  target_actor := [("w", [3, 4])]
  target_critic := [("w", [7])]
  actor_loss := 0
  critic_loss := 0

/-- A one-dimensional concrete actor parameter set used by the witness of
the output-bound theorem. -/
noncomputable def sampleActorParams : ActorParams where
  fc1_w := [[0]]
  fc1_b := [0]
  bn1_g := [1]
  bn1_b := [0]
  fc2_w := [[0]]
  fc2_b := [0]
  bn2_g := [1]
  bn2_b := [0]
  mu_w := [[0]]
  mu_b := [0]

end DDPG

namespace DDPG

/-! ### Helper lemmas -/

lemma zipWith_ext (f g : ℚ → ℚ → ℚ) (h : ∀ a b, f a b = g a b) :
    ∀ (v w : List ℚ), List.zipWith f v w = List.zipWith g v w := by
  intro v
  induction v with
  | nil => intro w; simp
  | cons a v ih => intro w; cases w <;> simp [h, ih]

lemma zipWith_fst : ∀ (v w : List ℚ), v.length = w.length →
    List.zipWith (fun s _ => s) v w = v := by
  intro v
  induction v with
  | nil => intro w _; simp
  | cons a v ih => intro w h; cases w <;> simp_all

lemma zipWith_snd : ∀ (v w : List ℚ), v.length = w.length →
    List.zipWith (fun _ t => t) v w = w := by
  intro v
  induction v with
  | nil => intro w h; cases w <;> simp_all
  | cons a v ih => intro w h; cases w <;> simp_all

lemma lookup_map_value (f : String → List ℚ → List ℚ) (d : StateDict) (name : String) :
    (d.map fun p => (p.1, f p.1 p.2)).lookup name = (d.lookup name).map (f name) := by
  induction d with
  | nil => rfl
  | cons hd tl ih =>
    obtain ⟨k, v⟩ := hd
    by_cases h : name = k
    · simp [List.lookup, h]
    · have hb : (name == k) = false := by simp [h]
      simp [List.lookup, hb, ih]

lemma polyakDict_lookup (tau : ℚ) (src tgt : StateDict) (name : String) :
    (polyakDict tau src tgt).lookup name
      = (src.lookup name).map
          (fun v => List.zipWith (fun s t => tau * s + (1 - tau) * t) v
            ((tgt.lookup name).getD [])) := by
  unfold polyakDict
  exact lookup_map_value
    (fun n v => List.zipWith (fun s t => tau * s + (1 - tau) * t) v ((tgt.lookup n).getD [])) src name

/-! ### C1: the TD target computed by `Agent.learn` -/

/-- C1.  For every sample position `j < batch_size`, the target list built by
the loop in `Agent.learn` satisfies
`y_j = r_j + gamma * Q_target_j * continues_j`, where the continues flag is
the value stored by `store_transition` as `1 - terminal` (so a terminal
transition stores `false` and a non-terminal one stores `true`); at a
position whose stored flag is `false` the target equals the reward exactly,
and at a position whose flag is `true` the full bootstrap term
`gamma * Q_target` is added. -/
theorem C1_td_target (gamma : ℚ) (bs : Nat) (r cv : List ℚ) (fl : List Bool)
    (b : ReplayBuffer) (st ac : List ℚ) (rw : ℚ) (st' : List ℚ) (dn : Bool)
    (j j0 j1 : Nat) (hj : j < bs) (hj0 : j0 < bs) (hj1 : j1 < bs)
    (hlen : b.terminal_memory.length = b.mem_size) (hpos : 0 < b.mem_size)
    (h0 : fl.getD j0 false = false) (h1 : fl.getD j1 false = true) :
    (tdTargets gamma bs r cv fl).getD j 0
        = r.getD j 0 + gamma * cv.getD j 0 * (if fl.getD j false then 1 else 0)
    ∧ (b.store_transition st ac rw st' dn).terminal_memory.getD
        (b.mem_cntr % b.mem_size) false = !dn
    ∧ (tdTargets gamma bs r cv fl).getD j0 0 = r.getD j0 0
    ∧ (tdTargets gamma bs r cv fl).getD j1 0 = r.getD j1 0 + gamma * cv.getD j1 0 := by
  have hget : ∀ i : Nat, i < bs → (tdTargets gamma bs r cv fl).getD i 0
      = r.getD i 0 + gamma * cv.getD i 0 * (if fl.getD i false then 1 else 0) := by
    intro i hi
    simp [tdTargets, List.getD_eq_getElem?_getD, List.getElem?_map, List.getElem?_range, hi]
  refine ⟨hget j hj, ?_, ?_, ?_⟩
  · have hflag : numpyBool (1 - (if dn then 1 else 0)) = !dn := by cases dn <;> rfl
    have hidx : b.mem_cntr % b.mem_size < b.terminal_memory.length := by
      rw [hlen]; exact Nat.mod_lt _ hpos
    simp [ReplayBuffer.store_transition, List.getD_eq_getElem?_getD,
      List.getElem?_set_eq_of_lt _ hidx, hflag]
  · rw [hget j0 hj0, h0]; simp
  · rw [hget j1 hj1, h1]; simp

/-- Witness for C1 at a concrete batch: batch size 2, a terminal sample at
position 0 and a non-terminal one at position 1. -/
theorem C1_td_target_witness :
    ((0:Nat) < 2 ∧ (1:Nat) < 2
      ∧ (ReplayBuffer.make 3 1 1).terminal_memory.length = (ReplayBuffer.make 3 1 1).mem_size
      ∧ 0 < (ReplayBuffer.make 3 1 1).mem_size
      ∧ [false, true].getD 0 false = false ∧ [false, true].getD 1 false = true)
    ∧ ((tdTargets (1/2) 2 [1, 2] [10, 20] [false, true]).getD 0 0
          = [(1:ℚ), 2].getD 0 0
            + (1/2) * [(10:ℚ), 20].getD 0 0 * (if [false, true].getD 0 false then 1 else 0)
      ∧ ((ReplayBuffer.make 3 1 1).store_transition [5] [6] 7 [8] true).terminal_memory.getD
          ((ReplayBuffer.make 3 1 1).mem_cntr % (ReplayBuffer.make 3 1 1).mem_size) false = !true
      ∧ (tdTargets (1/2) 2 [1, 2] [10, 20] [false, true]).getD 0 0 = [(1:ℚ), 2].getD 0 0
      ∧ (tdTargets (1/2) 2 [1, 2] [10, 20] [false, true]).getD 1 0
          = [(1:ℚ), 2].getD 1 0 + (1/2) * [(10:ℚ), 20].getD 1 0) :=
  ⟨⟨by decide, by decide, by decide, by decide, by decide, by decide⟩,
    C1_td_target (1/2) 2 [1, 2] [10, 20] [false, true] (ReplayBuffer.make 3 1 1)
      [5] [6] 7 [8] true 0 0 1 (by decide) (by decide) (by decide) (by decide)
      (by decide) (by decide) (by decide)⟩

/-! ### C3: `learn` is a no-op on an under-filled buffer -/

/-- C3.  When the buffer's insertion count is below the batch size,
`Agent.learn` returns immediately: the whole agent state — networks, losses,
buffer — is unchanged, and in particular no optimizer step and no loss
recording occurs. -/
theorem C3_learn_guard_noop (a : Agent) (batch : List Nat)
    (critic_value_ critic_value critic_mu : List ℚ)
    (criticStep actorStep : StateDict → StateDict)
    (h : a.memory.mem_cntr < a.batch_size) :
    a.learn batch critic_value_ critic_value critic_mu criticStep actorStep = some a := by
  simp [Agent.learn, h]

end DDPG

namespace DDPG

/-! ### C3 witness -/

/-- Witness for C3: a freshly constructed agent (empty buffer, batch size 1)
is returned unchanged by `learn`. -/
theorem C3_learn_guard_noop_witness :
    sampleAgent.memory.mem_cntr < sampleAgent.batch_size
    ∧ sampleAgent.learn [] [] [] [] id id = some sampleAgent :=
  ⟨by decide, C3_learn_guard_noop sampleAgent [] [] [] [] id id (by decide)⟩

/-! ### C2: the Polyak soft update -/

/-- C2.  For every `tau`, `update_network_parameters` maps each target
parameter tensor (matched by name, for both Critic and Actor) to
`tau * source + (1 - tau) * target` elementwise; with `tau = 1` the target
parameter becomes the source parameter, with `tau = 0` it is unchanged, and
for any `tau` each new target entry equals
`target + tau * (source - target)` — exactly the `tau` fraction of the
distance toward the source. -/
theorem C2_soft_update (a : Agent) (tau : ℚ) (nc na : String)
    (vc wc va wa : List ℚ)
    (hc : a.critic.lookup nc = some vc)
    (htc : a.target_critic.lookup nc = some wc)
    (hlc : vc.length = wc.length)
    (ha : a.actor.lookup na = some va)
    (hta : a.target_actor.lookup na = some wa)
    (hla : va.length = wa.length) :
    ((a.update_network_parameters tau).target_critic.lookup nc
        = some (List.zipWith (fun s t => tau * s + (1 - tau) * t) vc wc))
    ∧ ((a.update_network_parameters tau).target_actor.lookup na
        = some (List.zipWith (fun s t => tau * s + (1 - tau) * t) va wa))
    ∧ ((a.update_network_parameters 1).target_critic.lookup nc = some vc)
    ∧ ((a.update_network_parameters 1).target_actor.lookup na = some va)
    ∧ ((a.update_network_parameters 0).target_critic.lookup nc = some wc)
    ∧ ((a.update_network_parameters 0).target_actor.lookup na = some wa)
    ∧ (List.zipWith (fun s t => tau * s + (1 - tau) * t) vc wc
        = List.zipWith (fun s t => t + tau * (s - t)) vc wc)
    ∧ (List.zipWith (fun s t => tau * s + (1 - tau) * t) va wa
        = List.zipWith (fun s t => t + tau * (s - t)) va wa) := by
  have key : ∀ (tau' : ℚ) (src tgt : StateDict) (n : String) (v w : List ℚ),
      src.lookup n = some v → tgt.lookup n = some w →
      (polyakDict tau' src tgt).lookup n
        = some (List.zipWith (fun s t => tau' * s + (1 - tau') * t) v w) := by
    intro tau' src tgt n v w hv hw
    rw [polyakDict_lookup, hv, Option.map_some', hw, Option.getD_some]
  refine ⟨key tau a.critic a.target_critic nc vc wc hc htc,
    key tau a.actor a.target_actor na va wa ha hta, ?_, ?_, ?_, ?_, ?_, ?_⟩
  · rw [Agent.update_network_parameters]
    show (polyakDict 1 a.critic a.target_critic).lookup nc = some vc
    rw [key 1 a.critic a.target_critic nc vc wc hc htc]
    rw [zipWith_ext (fun s t => 1 * s + (1 - 1) * t) (fun s _ => s) (by intro s t; ring) vc wc,
      zipWith_fst vc wc hlc]
  · rw [Agent.update_network_parameters]
    show (polyakDict 1 a.actor a.target_actor).lookup na = some va
    rw [key 1 a.actor a.target_actor na va wa ha hta]
    rw [zipWith_ext (fun s t => 1 * s + (1 - 1) * t) (fun s _ => s) (by intro s t; ring) va wa,
      zipWith_fst va wa hla]
  · rw [Agent.update_network_parameters]
    show (polyakDict 0 a.critic a.target_critic).lookup nc = some wc
    rw [key 0 a.critic a.target_critic nc vc wc hc htc]
    rw [zipWith_ext (fun s t => 0 * s + (1 - 0) * t) (fun _ t => t) (by intro s t; ring) vc wc,
      zipWith_snd vc wc hlc]
  · rw [Agent.update_network_parameters]
    show (polyakDict 0 a.actor a.target_actor).lookup na = some wa
    rw [key 0 a.actor a.target_actor na va wa ha hta]
    rw [zipWith_ext (fun s t => 0 * s + (1 - 0) * t) (fun _ t => t) (by intro s t; ring) va wa,
      zipWith_snd va wa hla]
  · exact zipWith_ext _ _ (by intro s t; ring) vc wc
  · exact zipWith_ext _ _ (by intro s t; ring) va wa

/-- Witness for C2 on the concrete agent: one critic tensor `[5]` against
target `[7]`, one actor tensor `[1, 2]` against target `[3, 4]`,
`tau = 1/2`. -/
theorem C2_soft_update_witness :
    (sampleAgent.critic.lookup "w" = some [5]
      ∧ sampleAgent.target_critic.lookup "w" = some [7]
      ∧ sampleAgent.actor.lookup "w" = some [1, 2]
      ∧ sampleAgent.target_actor.lookup "w" = some [3, 4])
    ∧ (((sampleAgent.update_network_parameters (1/2)).target_critic.lookup "w"
          = some (List.zipWith (fun s t => (1/2 : ℚ) * s + (1 - 1/2) * t) [5] [7]))
      ∧ ((sampleAgent.update_network_parameters (1/2)).target_actor.lookup "w"
          = some (List.zipWith (fun s t => (1/2 : ℚ) * s + (1 - 1/2) * t) [1, 2] [3, 4]))
      ∧ ((sampleAgent.update_network_parameters 1).target_critic.lookup "w" = some [5])
      ∧ ((sampleAgent.update_network_parameters 1).target_actor.lookup "w" = some [1, 2])
      ∧ ((sampleAgent.update_network_parameters 0).target_critic.lookup "w" = some [7])
      ∧ ((sampleAgent.update_network_parameters 0).target_actor.lookup "w" = some [3, 4])
      ∧ (List.zipWith (fun s t => (1/2 : ℚ) * s + (1 - 1/2) * t) [5] [7]
          = List.zipWith (fun s t => t + (1/2 : ℚ) * (s - t)) [5] [7])
      ∧ (List.zipWith (fun s t => (1/2 : ℚ) * s + (1 - 1/2) * t) [1, 2] [3, 4]
          = List.zipWith (fun s t => t + (1/2 : ℚ) * (s - t)) [1, 2] [3, 4])) :=
  ⟨⟨by decide, by decide, by decide, by decide⟩,
    C2_soft_update sampleAgent (1/2) "w" "w" [5] [7] [1, 2] [3, 4]
      (by decide) (by decide) (by decide) (by decide) (by decide) (by decide)⟩

/-! ### C9: the soft update leaves the source networks unchanged -/

/-- C9.  For every `tau`, `update_network_parameters` modifies only the
target-Actor and target-Critic parameters: the source Actor and Critic
dicts, the replay buffer, the hyperparameters, and the recorded losses are
all left untouched. -/
theorem C9_soft_update_frame (a : Agent) (tau : ℚ) :
    (a.update_network_parameters tau).actor = a.actor
    ∧ (a.update_network_parameters tau).critic = a.critic
    ∧ (a.update_network_parameters tau).memory = a.memory
    ∧ (a.update_network_parameters tau).gamma = a.gamma
    ∧ (a.update_network_parameters tau).tau = a.tau
    ∧ (a.update_network_parameters tau).batch_size = a.batch_size
    ∧ (a.update_network_parameters tau).actor_loss = a.actor_loss
    ∧ (a.update_network_parameters tau).critic_loss = a.critic_loss :=
  ⟨rfl, rfl, rfl, rfl, rfl, rfl, rfl, rfl⟩

/-! ### C10: sampling and learning never mutate the buffer -/

/-- C10.  `sample_buffer` returns the buffer state unchanged (the method
only reads `self`), and consequently whenever `learn` completes, the
resulting agent's replay buffer — counter and all five arrays — equals the
buffer before the call. -/
theorem C10_buffer_frame :
    (∀ (b : ReplayBuffer) (batch : List Nat) (b' : ReplayBuffer) (s : SampleBatch),
        b.sample_buffer batch = some (b', s) → b' = b)
    ∧ (∀ (a : Agent) (batch : List Nat) (critic_value_ critic_value critic_mu : List ℚ)
        (criticStep actorStep : StateDict → StateDict) (a' : Agent),
        a.learn batch critic_value_ critic_value critic_mu criticStep actorStep = some a' →
        a'.memory = a.memory) := by
  constructor
  · intro b batch b' s h
    unfold ReplayBuffer.sample_buffer at h
    by_cases hz : min b.mem_cntr b.mem_size = 0
    · simp [hz] at h
    · simp only [hz, if_false] at h
      exact (congrArg Prod.fst (Option.some_injective _ h)).symm
  · intro a batch cv_ cv cm fs gs a' h
    unfold Agent.learn at h
    by_cases hg : a.memory.mem_cntr < a.batch_size
    · simp only [hg, if_true] at h
      rw [← Option.some_injective _ h]
    · simp only [hg, if_false] at h
      rcases hs : a.memory.sample_buffer batch with _ | ⟨mem, s⟩
      · rw [hs] at h; exact absurd h (by simp)
      · rw [hs] at h
        have hmem : mem = a.memory := by
          unfold ReplayBuffer.sample_buffer at hs
          by_cases hz : min a.memory.mem_cntr a.memory.mem_size = 0
          · simp [hz] at hs
          · simp only [hz, if_false] at hs
            exact (congrArg Prod.fst (Option.some_injective _ hs)).symm
        rw [← Option.some_injective _ h]
        simp [Agent.update_network_parameters, hmem]

/-- Witness for C10: a buffer holding one transition is returned unchanged
by `sample_buffer`, and `learn` on the fresh agent keeps its buffer. -/
theorem C10_buffer_frame_witness :
    (sampleBuf1.sample_buffer [0]
        = some (sampleBuf1,
            { states := [[2]], actions := [[3]], rewards := [4],
              states_ := [[5]], terminal := [false] })
      ∧ sampleBuf1 = sampleBuf1)
    ∧ (sampleAgent.learn [] [] [] [] id id = some sampleAgent
      ∧ sampleAgent.memory = sampleAgent.memory) :=
  ⟨⟨rfl, C10_buffer_frame.1 sampleBuf1 [0] sampleBuf1
      { states := [[2]], actions := [[3]], rewards := [4],
        states_ := [[5]], terminal := [false] } rfl⟩,
    ⟨rfl, C10_buffer_frame.2 sampleAgent [] [] [] [] id id sampleAgent rfl⟩⟩

end DDPG

namespace DDPG

/-! ### C5: the support and shape of `sample_buffer` -/

/-- C5.  `sample_buffer` draws its indices as `np.random.choice(max_mem,
batch_size)` with `max_mem = min(mem_cntr, mem_size)`, so after inserting
`k ≤ N_max` transitions every drawn index is below `k`; the returned batch
consists of the five parallel arrays all indexed by the same draw, of length
`batch_size`; and on an empty buffer (`mem_cntr = 0`) the call fails. -/
theorem C5_sample_buffer (b bz : ReplayBuffer) (batch bz_batch : List Nat) (n : Nat)
    (hz : bz.mem_cntr = 0)
    (hsupp : choiceSupport (min b.mem_cntr b.mem_size) n batch)
    (hk : 0 < b.mem_cntr) (hkN : b.mem_cntr ≤ b.mem_size) :
    bz.sample_buffer bz_batch = none
    ∧ (batch.all fun i => decide (i < b.mem_cntr)) = true
    ∧ b.sample_buffer batch = some (b,
        { states := batch.map fun i => b.state_memory.getD i []
          actions := batch.map fun i => b.action_memory.getD i []
          rewards := batch.map fun i => b.reward_memory.getD i 0
          states_ := batch.map fun i => b.new_state_memory.getD i []
          terminal := batch.map fun i => b.terminal_memory.getD i false })
    ∧ batch.length = n := by
  refine ⟨?_, ?_, ?_, hsupp.1⟩
  · simp [ReplayBuffer.sample_buffer, hz]
  · rw [List.all_eq_true]
    intro i hi
    have hlt := hsupp.2 i hi
    rw [min_eq_left hkN] at hlt
    exact decide_eq_true hlt
  · have hne : min b.mem_cntr b.mem_size ≠ 0 := by
      rw [min_eq_left hkN]; omega
    simp [ReplayBuffer.sample_buffer, hne]

/-- Witness for C5: an empty capacity-3 buffer fails, and a buffer holding
one transition, sampled with the draw `[0, 0]` of size 2, returns the
parallel arrays with every index below the insertion count. -/
theorem C5_sample_buffer_witness :
    (sampleBuf.mem_cntr = 0
      ∧ choiceSupport (min sampleBuf1.mem_cntr sampleBuf1.mem_size) 2 [0, 0]
      ∧ 0 < sampleBuf1.mem_cntr ∧ sampleBuf1.mem_cntr ≤ sampleBuf1.mem_size)
    ∧ (sampleBuf.sample_buffer [0] = none
      ∧ ([0, 0].all fun i => decide (i < sampleBuf1.mem_cntr)) = true
      ∧ sampleBuf1.sample_buffer [0, 0] = some (sampleBuf1,
          { states := [0, 0].map fun i => sampleBuf1.state_memory.getD i []
            actions := [0, 0].map fun i => sampleBuf1.action_memory.getD i []
            rewards := [0, 0].map fun i => sampleBuf1.reward_memory.getD i 0
            states_ := [0, 0].map fun i => sampleBuf1.new_state_memory.getD i []
            terminal := [0, 0].map fun i => sampleBuf1.terminal_memory.getD i false })
      ∧ [0, 0].length = 2) :=
  ⟨⟨by decide, ⟨by decide, by decide⟩, by decide, by decide⟩,
    C5_sample_buffer sampleBuf1 sampleBuf [0, 0] [0] 2
      (by decide) ⟨by decide, by decide⟩ (by decide) (by decide)⟩

/-! ### C8: configuration validation at the entry point -/

lemma pyIndex_out_of_range {α : Type} (xs : List α) (i : Int)
    (h : i < -(xs.length : Int) ∨ (xs.length : Int) ≤ i) : pyIndex xs i = none := by
  rcases h with h | h
  · have h0 : ¬ (0 ≤ i) := by omega
    have h1 : ¬ (-(xs.length : Int) ≤ i) := by omega
    simp [pyIndex, h0, h1]
  · have h0 : 0 ≤ i := by omega
    have h2 : xs.length ≤ i.toNat := by omega
    simp [pyIndex, h0, List.getElem?_eq_none h2]

/-- Counterexample to C8 as stated: the task index `-1` is outside the
enumerated range 0..4 announced by the prompt, yet the entry point does not
reject it — Python's negative indexing accepts it and selects the task
"Stack", so a full configuration is produced and training proceeds to
construct environments and agents. -/
theorem C8_counterexample :
    (-1 : Int) < 0 ∧ DDPG_main_config (-1) 0 1 = some ("Stack", "Dense", 1) :=
  ⟨by decide, by decide⟩

/-- C8 (amended).  Task indices outside Python's accepted range
`[-5, 5)`, reward indices outside `[-2, 2)`, and run counts below 1 are all
rejected during the configuration phase of the entry point — before any
worker, Agent, or Environment is constructed.  (Negative indices inside the
Python range are accepted by list indexing and are not rejected.) -/
theorem C8_entry_validation (t r n : Int)
    (h : (t < -(task_list.length : Int) ∨ (task_list.length : Int) ≤ t)
      ∨ (r < -(reward_list.length : Int) ∨ (reward_list.length : Int) ≤ r)
      ∨ n < 1) :
    DDPG_main_config t r n = none := by
  rcases h with h | h | h
  · simp [DDPG_main_config, pyIndex_out_of_range task_list t h]
  · cases ht : pyIndex task_list t with
    | none => simp [DDPG_main_config, ht]
    | some v => simp [DDPG_main_config, ht, pyIndex_out_of_range reward_list r h]
  · cases ht : pyIndex task_list t with
    | none => simp [DDPG_main_config, ht]
    | some v =>
      cases hr : pyIndex reward_list r with
      | none => simp [DDPG_main_config, ht, hr]
      | some w =>
        have hn : ¬ (1 ≤ n) := by omega
        simp [DDPG_main_config, ht, hr, poolCheck, hn]

/-- Witness for the amended C8: the out-of-range task index 5 is rejected at
entry. -/
theorem C8_entry_validation_witness :
    (((5 : Int) < -(task_list.length : Int) ∨ (task_list.length : Int) ≤ (5 : Int))
      ∨ ((0 : Int) < -(reward_list.length : Int) ∨ (reward_list.length : Int) ≤ (0 : Int))
      ∨ (1 : Int) < 1)
    ∧ DDPG_main_config 5 0 1 = none :=
  ⟨by decide, C8_entry_validation 5 0 1 (by decide)⟩

end DDPG

namespace DDPG

/-! ### C6: weight-initialisation bounds -/

/-- Counterexample to C6 as stated: the code computes the uniform half-width
as `1 / sqrt(weight.size()[0])`, and a PyTorch Linear weight's first
dimension is the output dimension, not `fan_in`; for a layer with 9 inputs
and 400 outputs the code's bound `1/20` differs from the claimed
`1/sqrt(9) = 1/3`. -/
theorem C6_counterexample : hiddenInitBound 9 400 ≠ specHiddenInitBound 9 400 := by
  unfold hiddenInitBound specHiddenInitBound linearWeightSize0
  have h400 : Real.sqrt (400 : ℝ) = 20 := by
    rw [show (400 : ℝ) = 20 ^ 2 by norm_num, Real.sqrt_sq (by norm_num : (0:ℝ) ≤ 20)]
  have h9 : Real.sqrt (9 : ℝ) = 3 := by
    rw [show (9 : ℝ) = 3 ^ 2 by norm_num, Real.sqrt_sq (by norm_num : (0:ℝ) ≤ 3)]
  push_cast
  rw [h400, h9]
  norm_num

/-- C6 (amended).  The explicitly initialised hidden layers fc1/fc2 of both
networks draw weights and biases uniformly from
`[-1/sqrt(size0), 1/sqrt(size0)]` where `size0 = weight.size()[0]` is the
layer's OUTPUT dimension (not `fan_in`); the output layers use
`[-0.003, 0.003]`; and whenever a hidden layer's input and output dimensions
differ, the code's bound differs from the spec's claimed `1/sqrt(fan_in)`
bound. -/
theorem C6_init_bounds (din dout : Nat) (hdin : 0 < din) (hdout : 0 < dout)
    (hne : din ≠ dout) :
    hiddenInitBound din dout = 1 / Real.sqrt ((dout : Nat) : ℝ)
    ∧ outputInitBound = 3 / 1000
    ∧ hiddenInitBound din dout ≠ specHiddenInitBound din dout := by
  refine ⟨rfl, by norm_num [outputInitBound], ?_⟩
  unfold hiddenInitBound specHiddenInitBound linearWeightSize0
  intro heq
  have hd : (0:ℝ) < Real.sqrt (din : ℝ) := Real.sqrt_pos.mpr (by exact_mod_cast hdin)
  have ho : (0:ℝ) < Real.sqrt (dout : ℝ) := Real.sqrt_pos.mpr (by exact_mod_cast hdout)
  field_simp at heq
  exact hne heq

/-- Witness for the amended C6 at a 9-input, 400-output layer. -/
theorem C6_init_bounds_witness :
    ((0:Nat) < 9 ∧ (0:Nat) < 400 ∧ (9 : Nat) ≠ 400)
    ∧ (hiddenInitBound 9 400 = 1 / Real.sqrt (((400 : Nat) : Nat) : ℝ)
      ∧ outputInitBound = 3 / 1000
      ∧ hiddenInitBound 9 400 ≠ specHiddenInitBound 9 400) :=
  ⟨⟨by decide, by decide, by decide⟩,
    C6_init_bounds 9 400 (by decide) (by decide) (by decide)⟩

/-! ### C7: the actor's output is bounded by the tanh activation -/

lemma tanh_mem_Icc (x : ℝ) : -1 ≤ Real.tanh x ∧ Real.tanh x ≤ 1 := by
  have hc : 0 < Real.cosh x := Real.cosh_pos x
  rw [Real.tanh_eq_sinh_div_cosh]
  constructor
  · rw [le_div_iff₀ hc]
    nlinarith [Real.exp_pos x, Real.cosh_add_sinh x]
  · rw [div_le_one hc]
    nlinarith [Real.exp_pos (-x), Real.cosh_sub_sinh x]

lemma getD_zero_mem (l : List ℝ) (d : ℝ) (h : l ≠ []) : l.getD 0 d ∈ l := by
  cases l with
  | nil => exact absurd rfl h
  | cons a t => simp [List.getD]

/-- C7.  Every component of the actor's forward output lies in `[-1, 1]`:
the final activation is the hyperbolic tangent, whatever the earlier
affine/LayerNorm/relu stages produce. -/
theorem C7_actor_output_bounded (p : ActorParams) (state : List ℝ) (y : ℝ)
    (hy : y ∈ ActorNetwork.forward p state) : -1 ≤ y ∧ y ≤ 1 := by
  simp only [ActorNetwork.forward] at hy
  rcases List.mem_map.mp hy with ⟨z, _, rfl⟩
  exact tanh_mem_Icc z

/-- Witness for C7 on a concrete one-dimensional actor network and input. -/
theorem C7_actor_output_bounded_witness :
    ((ActorNetwork.forward sampleActorParams [0]).getD 0 0
        ∈ ActorNetwork.forward sampleActorParams [0])
    ∧ (-1 ≤ (ActorNetwork.forward sampleActorParams [0]).getD 0 0
      ∧ (ActorNetwork.forward sampleActorParams [0]).getD 0 0 ≤ 1) := by
  have hne : ActorNetwork.forward sampleActorParams [0] ≠ [] := by
    have : (ActorNetwork.forward sampleActorParams [0]).length = 1 := by
      simp [ActorNetwork.forward, sampleActorParams, linearFwd, layerNormFwd, dotProd, relu]
    intro hnil
    rw [hnil] at this
    simp at this
  have hm := getD_zero_mem (ActorNetwork.forward sampleActorParams [0]) 0 hne
  exact ⟨hm, C7_actor_output_bounded sampleActorParams [0] _ hm⟩

end DDPG

namespace DDPG

/-! ### C4: circular overwrite behaviour of the buffer -/

lemma getD_set_self {α : Type} (l : List α) (i : Nat) (a d : α) (h : i < l.length) :
    (l.set i a).getD i d = a := by
  rw [List.getD_eq_getElem?_getD, List.getElem?_set_eq_of_lt a h]
  rfl

lemma getD_set_ne {α : Type} (l : List α) (i j : Nat) (a d : α) (h : i ≠ j) :
    (l.set i a).getD j d = l.getD j d := by
  rw [List.getD_eq_getElem?_getD, List.getElem?_set_ne h, ← List.getD_eq_getElem?_getD]

lemma getD_concat_length {α : Type} (l : List α) (a d : α) :
    (l ++ [a]).getD l.length d = a := by
  rw [List.getD_eq_getElem?_getD, List.getElem?_concat_length]
  rfl

lemma getD_append_left {α : Type} (l1 l2 : List α) (i : Nat) (d : α) (h : i < l1.length) :
    (l1 ++ l2).getD i d = l1.getD i d := by
  rw [List.getD_eq_getElem?_getD, List.getElem?_append, if_pos h, ← List.getD_eq_getElem?_getD]

lemma getD_replicate {α : Type} (n i : Nat) (a d : α) (h : i < n) :
    (List.replicate n a).getD i d = a := by
  rw [List.getD_eq_getElem?_getD, List.getElem?_replicate, if_pos h]
  rfl

lemma numpyBool_one_sub (dn : Bool) : numpyBool (1 - (if dn then 1 else 0)) = !dn := by
  cases dn <;> rfl

lemma mod_ne_of_between (N i j : Nat) (hij : j < i) (h : i < j + N) : i % N ≠ j % N := by
  intro hmod
  have hdvd := (Nat.modEq_iff_dvd' (Nat.le_of_lt hij)).mp hmod.symm
  have hle := Nat.le_of_dvd (by omega) hdvd
  omega

lemma storeAll_mem_cntr (b : ReplayBuffer) (ts : List Transition) :
    (b.storeAll ts).mem_cntr = b.mem_cntr + ts.length := by
  induction ts generalizing b with
  | nil => rfl
  | cons t ts ih =>
    have h := ih (b.store_transition t.state t.action t.reward t.state_ t.done)
    exact h.trans (by show b.mem_cntr + 1 + ts.length = b.mem_cntr + (ts.length + 1); omega)

lemma storeAll_mem_size (b : ReplayBuffer) (ts : List Transition) :
    (b.storeAll ts).mem_size = b.mem_size := by
  induction ts generalizing b with
  | nil => rfl
  | cons t ts ih => exact ih (b.store_transition t.state t.action t.reward t.state_ t.done)

lemma storeAll_lengths (b : ReplayBuffer) (ts : List Transition) :
    (b.storeAll ts).state_memory.length = b.state_memory.length
    ∧ (b.storeAll ts).new_state_memory.length = b.new_state_memory.length
    ∧ (b.storeAll ts).action_memory.length = b.action_memory.length
    ∧ (b.storeAll ts).reward_memory.length = b.reward_memory.length
    ∧ (b.storeAll ts).terminal_memory.length = b.terminal_memory.length := by
  induction ts generalizing b with
  | nil => exact ⟨rfl, rfl, rfl, rfl, rfl⟩
  | cons t ts ih =>
    obtain ⟨h1, h2, h3, h4, h5⟩ := ih (b.store_transition t.state t.action t.reward t.state_ t.done)
    exact ⟨h1.trans (by simp [ReplayBuffer.store_transition]),
      h2.trans (by simp [ReplayBuffer.store_transition]),
      h3.trans (by simp [ReplayBuffer.store_transition]),
      h4.trans (by simp [ReplayBuffer.store_transition]),
      h5.trans (by simp [ReplayBuffer.store_transition])⟩

lemma storeAll_recent (N d m : Nat) (hN : 0 < N) :
    ∀ (ts : List Transition) (j : Nat), j < ts.length → ts.length ≤ j + N →
      ((ReplayBuffer.make N d m).storeAll ts).state_memory.getD (j % N) []
          = (ts.getD j default).state
      ∧ ((ReplayBuffer.make N d m).storeAll ts).new_state_memory.getD (j % N) []
          = (ts.getD j default).state_
      ∧ ((ReplayBuffer.make N d m).storeAll ts).action_memory.getD (j % N) []
          = (ts.getD j default).action
      ∧ ((ReplayBuffer.make N d m).storeAll ts).reward_memory.getD (j % N) 0
          = (ts.getD j default).reward
      ∧ ((ReplayBuffer.make N d m).storeAll ts).terminal_memory.getD (j % N) false
          = !(ts.getD j default).done := by
  intro ts
  induction ts using List.reverseRecOn with
  | nil => intro j hj _; exact absurd hj (by simp)
  | append_singleton ts t ih =>
    intro j hj hrec
    have hB : (ReplayBuffer.make N d m).storeAll (ts ++ [t])
        = ((ReplayBuffer.make N d m).storeAll ts).store_transition
            t.state t.action t.reward t.state_ t.done := by
      unfold ReplayBuffer.storeAll
      rw [List.foldl_append]
      rfl
    have hcnt : ((ReplayBuffer.make N d m).storeAll ts).mem_cntr = ts.length := by
      rw [storeAll_mem_cntr]
      simp [ReplayBuffer.make]
    have hsize : ((ReplayBuffer.make N d m).storeAll ts).mem_size = N := by
      rw [storeAll_mem_size]
      rfl
    obtain ⟨hl1, hl2, hl3, hl4, hl5⟩ := storeAll_lengths (ReplayBuffer.make N d m) ts
    rw [show (ReplayBuffer.make N d m).state_memory.length = N
        from by simp [ReplayBuffer.make]] at hl1
    rw [show (ReplayBuffer.make N d m).new_state_memory.length = N
        from by simp [ReplayBuffer.make]] at hl2
    rw [show (ReplayBuffer.make N d m).action_memory.length = N
        from by simp [ReplayBuffer.make]] at hl3
    rw [show (ReplayBuffer.make N d m).reward_memory.length = N
        from by simp [ReplayBuffer.make]] at hl4
    rw [show (ReplayBuffer.make N d m).terminal_memory.length = N
        from by simp [ReplayBuffer.make]] at hl5
    have hlen : (ts ++ [t]).length = ts.length + 1 := by simp
    rcases Nat.lt_or_ge j ts.length with hlt | hge
    · have hne : ts.length % N ≠ j % N :=
        mod_ne_of_between N ts.length j hlt (by rw [hlen] at hrec; omega)
      have hrhs : (ts ++ [t]).getD j default = ts.getD j default :=
        getD_append_left ts [t] j default hlt
      obtain ⟨i1, i2, i3, i4, i5⟩ := ih j hlt (by rw [hlen] at hrec; omega)
      rw [hB]
      simp only [ReplayBuffer.store_transition]
      rw [hcnt, hsize, hrhs]
      exact ⟨(getD_set_ne _ _ _ _ _ hne).trans i1,
        (getD_set_ne _ _ _ _ _ hne).trans i2,
        (getD_set_ne _ _ _ _ _ hne).trans i3,
        (getD_set_ne _ _ _ _ _ hne).trans i4,
        (getD_set_ne _ _ _ _ _ hne).trans i5⟩
    · have hj' : j = ts.length := by rw [hlen] at hj; omega
      subst hj'
      have hidx : ts.length % N < N := Nat.mod_lt _ hN
      have hrhs : (ts ++ [t]).getD ts.length default = t := getD_concat_length ts t default
      rw [hB]
      simp only [ReplayBuffer.store_transition]
      rw [hcnt, hsize, hrhs]
      exact ⟨getD_set_self _ _ _ _ (by rw [hl1]; exact hidx),
        getD_set_self _ _ _ _ (by rw [hl2]; exact hidx),
        getD_set_self _ _ _ _ (by rw [hl3]; exact hidx),
        getD_set_self _ _ _ _ (by rw [hl4]; exact hidx),
        (getD_set_self _ _ _ _ (by rw [hl5]; exact hidx)).trans (numpyBool_one_sub t.done)⟩

lemma storeAll_untouched (N d m : Nat) :
    ∀ (ts : List Transition) (s : Nat), s < N → ts.length ≤ s →
      ((ReplayBuffer.make N d m).storeAll ts).state_memory.getD s []
          = List.replicate d 0
      ∧ ((ReplayBuffer.make N d m).storeAll ts).new_state_memory.getD s []
          = List.replicate d 0
      ∧ ((ReplayBuffer.make N d m).storeAll ts).action_memory.getD s []
          = List.replicate m 0
      ∧ ((ReplayBuffer.make N d m).storeAll ts).reward_memory.getD s 0 = 0
      ∧ ((ReplayBuffer.make N d m).storeAll ts).terminal_memory.getD s false = false := by
  intro ts
  induction ts using List.reverseRecOn with
  | nil =>
    intro s hs _
    exact ⟨getD_replicate N s _ _ hs, getD_replicate N s _ _ hs,
      getD_replicate N s _ _ hs, getD_replicate N s _ _ hs, getD_replicate N s _ _ hs⟩
  | append_singleton ts t ih =>
    intro s hs hks
    have hB : (ReplayBuffer.make N d m).storeAll (ts ++ [t])
        = ((ReplayBuffer.make N d m).storeAll ts).store_transition
            t.state t.action t.reward t.state_ t.done := by
      unfold ReplayBuffer.storeAll
      rw [List.foldl_append]
      rfl
    have hcnt : ((ReplayBuffer.make N d m).storeAll ts).mem_cntr = ts.length := by
      rw [storeAll_mem_cntr]
      simp [ReplayBuffer.make]
    have hsize : ((ReplayBuffer.make N d m).storeAll ts).mem_size = N := by
      rw [storeAll_mem_size]
      rfl
    have hlen : (ts ++ [t]).length = ts.length + 1 := by simp
    rw [hlen] at hks
    have hmod : ts.length % N = ts.length := Nat.mod_eq_of_lt (by omega)
    have hne : ts.length % N ≠ s := by rw [hmod]; omega
    obtain ⟨i1, i2, i3, i4, i5⟩ := ih s hs (by omega)
    rw [hB]
    simp only [ReplayBuffer.store_transition]
    rw [hcnt, hsize]
    exact ⟨(getD_set_ne _ _ _ _ _ hne).trans i1,
      (getD_set_ne _ _ _ _ _ hne).trans i2,
      (getD_set_ne _ _ _ _ _ hne).trans i3,
      (getD_set_ne _ _ _ _ _ hne).trans i4,
      (getD_set_ne _ _ _ _ _ hne).trans i5⟩

lemma slotWritten_iff (k N s : Nat) (hs : s < N) : slotWritten k N s = true ↔ s < k := by
  simp only [slotWritten, List.any_eq_true, List.mem_range, beq_iff_eq]
  constructor
  · rintro ⟨j, hj, hmod⟩
    have := Nat.mod_le j N
    omega
  · intro h
    exact ⟨s, h, Nat.mod_eq_of_lt hs⟩

lemma countP_range_lt (k N : Nat) :
    (List.range N).countP (fun s => decide (s < k)) = min k N := by
  induction N with
  | zero => simp
  | succ N ih =>
    rw [List.range_succ, List.countP_append, ih]
    by_cases h : N < k
    · simp [List.countP_cons, h]
      omega
    · simp [List.countP_cons, h]
      omega

lemma countP_slotWritten (k N : Nat) :
    (List.range N).countP (fun s => slotWritten k N s) = min k N := by
  rw [List.countP_congr, countP_range_lt]
  intro s hs
  rw [slotWritten_iff k N s (List.mem_range.mp hs), decide_eq_true_eq]

/-- C4.  `store_transition` always succeeds: it writes the five fields into
slot `mem_cntr % mem_size` and increments `mem_cntr`; starting from a fresh
buffer of capacity `N`, after storing the list `ts1` every transition within
the last `N` insertions is still present in its slot `j % N` (with the
terminal flag stored inverted), i.e. an entry is evicted only after `N`
further insertions; slots never reached by the write cursor still hold
their initial zeros; and the number of slots the cursor has written is
`min(count_inserted, N)`. -/
theorem C4_store_circular (b : ReplayBuffer) (st ac : List ℚ) (rw0 : ℚ)
    (st' : List ℚ) (dn : Bool) (N d m : Nat) (ts1 ts2 : List Transition) (j s : Nat)
    (hN : 0 < N) (hj : j < ts1.length) (hrec : ts1.length ≤ j + N)
    (hs : s < N) (hks : ts2.length ≤ s) :
    ((b.store_transition st ac rw0 st' dn).mem_cntr = b.mem_cntr + 1
      ∧ (b.store_transition st ac rw0 st' dn).state_memory
          = b.state_memory.set (b.mem_cntr % b.mem_size) st
      ∧ (b.store_transition st ac rw0 st' dn).new_state_memory
          = b.new_state_memory.set (b.mem_cntr % b.mem_size) st'
      ∧ (b.store_transition st ac rw0 st' dn).action_memory
          = b.action_memory.set (b.mem_cntr % b.mem_size) ac
      ∧ (b.store_transition st ac rw0 st' dn).reward_memory
          = b.reward_memory.set (b.mem_cntr % b.mem_size) rw0
      ∧ (b.store_transition st ac rw0 st' dn).terminal_memory
          = b.terminal_memory.set (b.mem_cntr % b.mem_size)
              (numpyBool (1 - (if dn then 1 else 0))))
    ∧ ((ReplayBuffer.make N d m).storeAll ts1).mem_cntr = ts1.length
    ∧ (((ReplayBuffer.make N d m).storeAll ts1).state_memory.getD (j % N) []
          = (ts1.getD j default).state
      ∧ ((ReplayBuffer.make N d m).storeAll ts1).new_state_memory.getD (j % N) []
          = (ts1.getD j default).state_
      ∧ ((ReplayBuffer.make N d m).storeAll ts1).action_memory.getD (j % N) []
          = (ts1.getD j default).action
      ∧ ((ReplayBuffer.make N d m).storeAll ts1).reward_memory.getD (j % N) 0
          = (ts1.getD j default).reward
      ∧ ((ReplayBuffer.make N d m).storeAll ts1).terminal_memory.getD (j % N) false
          = !(ts1.getD j default).done)
    ∧ (((ReplayBuffer.make N d m).storeAll ts2).state_memory.getD s []
          = List.replicate d 0
      ∧ ((ReplayBuffer.make N d m).storeAll ts2).new_state_memory.getD s []
          = List.replicate d 0
      ∧ ((ReplayBuffer.make N d m).storeAll ts2).action_memory.getD s []
          = List.replicate m 0
      ∧ ((ReplayBuffer.make N d m).storeAll ts2).reward_memory.getD s 0 = 0
      ∧ ((ReplayBuffer.make N d m).storeAll ts2).terminal_memory.getD s false = false)
    ∧ (List.range N).countP (fun s' => slotWritten ts1.length N s') = min ts1.length N := by
  refine ⟨⟨rfl, rfl, rfl, rfl, rfl, rfl⟩, ?_,
    storeAll_recent N d m hN ts1 j hj hrec,
    storeAll_untouched N d m ts2 s hs hks,
    countP_slotWritten ts1.length N⟩
  rw [storeAll_mem_cntr]
  simp [ReplayBuffer.make]

end DDPG

namespace DDPG

/-- Witness for C4: capacity-2 buffer, three insertions (so the first entry
has been overwritten and the slot for `j = 2` is `0`), and a single
insertion leaving slot 1 untouched. -/
theorem C4_store_circular_witness :
    (0 < 2 ∧ (2:Nat) < ([(⟨[1], [2], 3, [4], false⟩ : Transition),
        ⟨[5], [6], 7, [8], true⟩, ⟨[9], [10], 11, [12], false⟩]).length
      ∧ ([(⟨[1], [2], 3, [4], false⟩ : Transition),
        ⟨[5], [6], 7, [8], true⟩, ⟨[9], [10], 11, [12], false⟩]).length ≤ 2 + 2
      ∧ (1:Nat) < 2
      ∧ ([(⟨[1], [2], 3, [4], false⟩ : Transition)]).length ≤ 1)
    ∧ (((sampleBuf.store_transition [1] [2] 3 [4] false).mem_cntr = sampleBuf.mem_cntr + 1
      ∧ (sampleBuf.store_transition [1] [2] 3 [4] false).state_memory
          = sampleBuf.state_memory.set (sampleBuf.mem_cntr % sampleBuf.mem_size) [1]
      ∧ (sampleBuf.store_transition [1] [2] 3 [4] false).new_state_memory
          = sampleBuf.new_state_memory.set (sampleBuf.mem_cntr % sampleBuf.mem_size) [4]
      ∧ (sampleBuf.store_transition [1] [2] 3 [4] false).action_memory
          = sampleBuf.action_memory.set (sampleBuf.mem_cntr % sampleBuf.mem_size) [2]
      ∧ (sampleBuf.store_transition [1] [2] 3 [4] false).reward_memory
          = sampleBuf.reward_memory.set (sampleBuf.mem_cntr % sampleBuf.mem_size) 3
      ∧ (sampleBuf.store_transition [1] [2] 3 [4] false).terminal_memory
          = sampleBuf.terminal_memory.set (sampleBuf.mem_cntr % sampleBuf.mem_size)
              (numpyBool (1 - (if false then 1 else 0))))
    ∧ ((ReplayBuffer.make 2 1 1).storeAll [⟨[1], [2], 3, [4], false⟩,
          ⟨[5], [6], 7, [8], true⟩, ⟨[9], [10], 11, [12], false⟩]).mem_cntr
        = ([(⟨[1], [2], 3, [4], false⟩ : Transition),
            ⟨[5], [6], 7, [8], true⟩, ⟨[9], [10], 11, [12], false⟩]).length
    ∧ (((ReplayBuffer.make 2 1 1).storeAll [⟨[1], [2], 3, [4], false⟩,
          ⟨[5], [6], 7, [8], true⟩, ⟨[9], [10], 11, [12], false⟩]).state_memory.getD (2 % 2) []
        = (([(⟨[1], [2], 3, [4], false⟩ : Transition),
            ⟨[5], [6], 7, [8], true⟩, ⟨[9], [10], 11, [12], false⟩]).getD 2 default).state
      ∧ ((ReplayBuffer.make 2 1 1).storeAll [⟨[1], [2], 3, [4], false⟩,
          ⟨[5], [6], 7, [8], true⟩, ⟨[9], [10], 11, [12], false⟩]).new_state_memory.getD (2 % 2) []
        = (([(⟨[1], [2], 3, [4], false⟩ : Transition),
            ⟨[5], [6], 7, [8], true⟩, ⟨[9], [10], 11, [12], false⟩]).getD 2 default).state_
      ∧ ((ReplayBuffer.make 2 1 1).storeAll [⟨[1], [2], 3, [4], false⟩,
          ⟨[5], [6], 7, [8], true⟩, ⟨[9], [10], 11, [12], false⟩]).action_memory.getD (2 % 2) []
        = (([(⟨[1], [2], 3, [4], false⟩ : Transition),
            ⟨[5], [6], 7, [8], true⟩, ⟨[9], [10], 11, [12], false⟩]).getD 2 default).action
      ∧ ((ReplayBuffer.make 2 1 1).storeAll [⟨[1], [2], 3, [4], false⟩,
          ⟨[5], [6], 7, [8], true⟩, ⟨[9], [10], 11, [12], false⟩]).reward_memory.getD (2 % 2) 0
        = (([(⟨[1], [2], 3, [4], false⟩ : Transition),
            ⟨[5], [6], 7, [8], true⟩, ⟨[9], [10], 11, [12], false⟩]).getD 2 default).reward
      ∧ ((ReplayBuffer.make 2 1 1).storeAll [⟨[1], [2], 3, [4], false⟩,
          ⟨[5], [6], 7, [8], true⟩, ⟨[9], [10], 11, [12], false⟩]).terminal_memory.getD (2 % 2) false
        = !(([(⟨[1], [2], 3, [4], false⟩ : Transition),
            ⟨[5], [6], 7, [8], true⟩, ⟨[9], [10], 11, [12], false⟩]).getD 2 default).done)
    ∧ (((ReplayBuffer.make 2 1 1).storeAll [⟨[1], [2], 3, [4], false⟩]).state_memory.getD 1 []
          = List.replicate 1 0
      ∧ ((ReplayBuffer.make 2 1 1).storeAll [⟨[1], [2], 3, [4], false⟩]).new_state_memory.getD 1 []
          = List.replicate 1 0
      ∧ ((ReplayBuffer.make 2 1 1).storeAll [⟨[1], [2], 3, [4], false⟩]).action_memory.getD 1 []
          = List.replicate 1 0
      ∧ ((ReplayBuffer.make 2 1 1).storeAll [⟨[1], [2], 3, [4], false⟩]).reward_memory.getD 1 0 = 0
      ∧ ((ReplayBuffer.make 2 1 1).storeAll [⟨[1], [2], 3, [4], false⟩]).terminal_memory.getD 1 false
          = false)
    ∧ (List.range 2).countP (fun s' => slotWritten ([(⟨[1], [2], 3, [4], false⟩ : Transition),
          ⟨[5], [6], 7, [8], true⟩, ⟨[9], [10], 11, [12], false⟩]).length 2 s')
        = min ([(⟨[1], [2], 3, [4], false⟩ : Transition),
          ⟨[5], [6], 7, [8], true⟩, ⟨[9], [10], 11, [12], false⟩]).length 2) :=
  ⟨⟨by decide, by decide, by decide, by decide, by decide⟩,
    C4_store_circular sampleBuf [1] [2] 3 [4] false 2 1 1
      [⟨[1], [2], 3, [4], false⟩, ⟨[5], [6], 7, [8], true⟩, ⟨[9], [10], 11, [12], false⟩]
      [⟨[1], [2], 3, [4], false⟩] 2 1
      (by decide) (by decide) (by decide) (by decide) (by decide)⟩

end DDPG
